import Mathlib

/-!
Shallow embedding of `src/core/commands.py` (quickstatements3): the command
building layer that translates parsed batch-edit instructions into the
request bodies of a Wikibase-style REST API.

Python dictionaries and JSON payloads are modelled by the inductive `Json`
below; all dictionaries built by this code use a fixed key order, so
structural equality of `Json` coincides with Python dictionary equality on
every comparison the code performs.  Python exceptions are modelled by the
`Err` type and fallible code returns `Except Err _`.  The external client
collaborator (`core.client.Client`) is modelled as a record of pure
functions (`Client` below); its per-operation HTTP calls are reified as
`ClientCall` values so routing and ordering of calls is observable.
-/

/-- JSON-like values: Python dicts are association lists in insertion
order (Python dicts preserve insertion order and never hold duplicate
keys). -/
inductive Json where
  | null : Json
  | bool (b : Bool) : Json
  | num (n : Int) : Json
  | str (s : String) : Json
  | arr (elems : List Json) : Json
  | obj (fields : List (String × Json)) : Json

mutual

/-- Structural (Python `==`) equality on `Json`. -/
def Json.beq : Json → Json → Bool
  | .null, .null => true
  | .bool a, .bool b => a == b
  | .num a, .num b => a == b
  | .str a, .str b => a == b
  | .arr xs, .arr ys => Json.beqList xs ys
  | .obj fs, .obj gs => Json.beqFields fs gs
  | _, _ => false

def Json.beqList : List Json → List Json → Bool
  | [], [] => true
  | x :: xs, y :: ys => Json.beq x y && Json.beqList xs ys
  | _, _ => false

def Json.beqFields : List (String × Json) → List (String × Json) → Bool
  | [], [] => true
  | (k, v) :: xs, (k', w) :: ys => k == k' && Json.beq v w && Json.beqFields xs ys
  | _, _ => false

end

mutual

def Json.beq_iff : (a b : Json) → (Json.beq a b = true ↔ a = b)
  | .null, b => by cases b <;> simp [Json.beq]
  | .bool a, b => by cases b <;> simp [Json.beq]
  | .num a, b => by cases b <;> simp [Json.beq]
  | .str a, b => by cases b <;> simp [Json.beq]
  | .arr xs, b => by
      cases b <;> simp [Json.beq]
      exact Json.beqList_iff xs _
  | .obj fs, b => by
      cases b <;> simp [Json.beq]
      exact Json.beqFields_iff fs _

def Json.beqList_iff : (xs ys : List Json) → (Json.beqList xs ys = true ↔ xs = ys)
  | [], ys => by cases ys <;> simp [Json.beqList]
  | x :: xs, ys => by
      cases ys with
      | nil => simp [Json.beqList]
      | cons y ys =>
        have h1 := Json.beq_iff x y
        have h2 := Json.beqList_iff xs ys
        simp [Json.beqList, h1, h2]

def Json.beqFields_iff : (fs gs : List (String × Json)) → (Json.beqFields fs gs = true ↔ fs = gs)
  | [], gs => by cases gs <;> simp [Json.beqFields]
  | (k, v) :: fs, gs => by
      cases gs with
      | nil => simp [Json.beqFields]
      | cons kw gs =>
        have h1 := Json.beq_iff v kw.2
        have h2 := Json.beqFields_iff fs gs
        cases kw
        simp [Json.beqFields, h1, h2, Prod.ext_iff]

end

instance : DecidableEq Json := fun a b =>
  decidable_of_iff (Json.beq a b = true) (Json.beq_iff a b)

/-- First-match lookup in an association list (Python dict indexing). -/
def lookupField : List (String × Json) → String → Option Json
  | [], _ => none
  | (k', v) :: rest, k => if k' = k then some v else lookupField rest k

/-- `d.get(k)` — `none` when the key is absent or the value is not a dict. -/
def Json.get? : Json → String → Option Json
  | .obj fields, k => lookupField fields k
  | _, _ => none

/-- Exceptions raised by `core/commands.py` (from `core.exceptions`) plus
the Python built-ins `KeyError`, `TypeError` and `ValueError` that dict
indexing, iteration and the final `send` branch can raise. -/
inductive Err where
  | keyError (k : String) : Err
  | typeError (msg : String) : Err
  | valueError (msg : String) : Err
  | apiNotImplemented : Err
  | invalidPropertyDataType (property_id : Json) (data_type : Json) (needed_data_type : String) : Err
  | noStatementsForThatProperty (entity_id : Json) (property_id : Json) : Err
  | noStatementsWithThatValue (entity_id : Json) (property_id : Json) (value : Json) : Err
deriving DecidableEq

/-- `d[k]`: raises `KeyError` when the key is absent. -/
def Json.getE (j : Json) (k : String) : Except Err Json :=
  match j.get? k with
  | some v => .ok v
  | none => .error (.keyError k)

/-- Iterating a value (`for x in v`): only lists are iterable here. -/
def Json.asArr : Json → Except Err (List Json)
  | .arr xs => .ok xs
  | _ => .error (.typeError "object is not iterable")

/-- `str(v)` as used by the f-strings building patch paths; the code only
ever renders strings there. -/
def pyStr : Json → String
  | .str s => s
  | .bool true => "True"
  | .bool false => "False"
  | .null => "None"
  | .num n => toString n
  | _ => ""

/-- `parser_value_to_api_value` (commands.py lines 12-27): `novalue` and
`somevalue` parser values pass through type-only; anything else is wrapped
as `{"type": "value", "content": <raw value>}`. -/
def parser_value_to_api_value (parser_value : Json) : Except Err Json := do
  let t ← parser_value.getE "type"
  if t = .str "novalue" ∨ t = .str "somevalue" then
    return .obj [("type", t)]
  else
    let v ← parser_value.getE "value"
    return .obj [("type", .str "value"), ("content", v)]

/-- C2: for every parsed value, `parser_value_to_api_value` returns a
type-only object for `novalue`/`somevalue`, and otherwise wraps the raw
`value` field under type `"value"`. -/
theorem parser_value_to_api_value_spec
    (pv : Json) (t : Json) (ht : pv.get? "type" = some t) :
    ((t = .str "novalue" ∨ t = .str "somevalue") →
      parser_value_to_api_value pv = .ok (.obj [("type", t)]))
    ∧ (¬(t = .str "novalue" ∨ t = .str "somevalue") →
        ∀ x : Json, pv.get? "value" = some x →
          parser_value_to_api_value pv =
            .ok (.obj [("type", .str "value"), ("content", x)])) := by
  constructor
  · intro hmem
    simp [parser_value_to_api_value, Json.getE, ht, hmem, Bind.bind, Except.bind,
      pure, Except.pure]
  · intro hmem x hx
    simp [parser_value_to_api_value, Json.getE, ht, hx, hmem, Bind.bind, Except.bind,
      pure, Except.pure]

/-- Witness for C2 at concrete inputs. -/
theorem parser_value_to_api_value_spec_witness :
    parser_value_to_api_value (.obj [("type", .str "novalue")]) =
      .ok (.obj [("type", .str "novalue")])
    ∧ parser_value_to_api_value
        (.obj [("type", .str "string"), ("value", .str "hello")]) =
      .ok (.obj [("type", .str "value"), ("content", .str "hello")]) :=
  ⟨(parser_value_to_api_value_spec (.obj [("type", .str "novalue")])
      (.str "novalue") (by decide)).1 (by simp),
   (parser_value_to_api_value_spec
      (.obj [("type", .str "string"), ("value", .str "hello")])
      (.str "string") (by decide)).2 (by simp) (.str "hello") (by decide)⟩

/-- C3: on inputs tagged `novalue` or `somevalue` the translation is
idempotent — applying it to its own output gives that output back. -/
theorem parser_value_to_api_value_idem
    (pv : Json) (t : Json) (ht : pv.get? "type" = some t)
    (hmem : t = .str "novalue" ∨ t = .str "somevalue")
    (out : Json) (hout : parser_value_to_api_value pv = .ok out) :
    parser_value_to_api_value out = .ok out := by
  have h := (parser_value_to_api_value_spec pv t ht).1 hmem
  rw [h] at hout
  cases hout
  simp [parser_value_to_api_value, Json.getE, Json.get?, lookupField, hmem,
    Bind.bind, Except.bind, pure, Except.pure]

/-- Witness for C3 at a concrete input. -/
theorem parser_value_to_api_value_idem_witness :
    parser_value_to_api_value (.obj [("type", .str "somevalue")]) =
      .ok (.obj [("type", .str "somevalue")]) :=
  parser_value_to_api_value_idem
    (.obj [("type", .str "somevalue"), ("extra", .null)])
    (.str "somevalue") (by decide) (by simp)
    (.obj [("type", .str "somevalue")]) (by rfl)

/-- `BatchCommand` actions used by the builder (`core.models.BatchCommand`
constants `ACTION_ADD`, `ACTION_CREATE`, `ACTION_REMOVE`). -/
inductive BatchCommand.Action where
  | add : BatchCommand.Action
  | create : BatchCommand.Action
  | remove : BatchCommand.Action
deriving DecidableEq

/-- A `BatchCommand` as the builder sees it: an action tag and the parsed
JSON payload.  (The `batch.user` / token lookup used to construct the
client collaborator is external to this file's scope: the client is passed
explicitly instead.) -/
structure Command where
  action : BatchCommand.Action
  json : Json

/-- One statement as returned by the client's `get_statements`: a dict
with an `id` and an API-shaped `value` (external boundary, section 6 of
the spec). -/
structure Statement where
  id : Json
  value : Json
deriving DecidableEq

/-- A reified call to one of the client collaborator's operations. -/
inductive ClientCall where
  | add_statement (entity_id : Json) (body : Json) : ClientCall
  | add_label (entity_id : Json) (body : Json) : ClientCall
  | add_description (entity_id : Json) (body : Json) : ClientCall
  | add_alias (entity_id : Json) (body : Json) : ClientCall
  | add_sitelink (entity_id : Json) (body : Json) : ClientCall
  | create_item (body : Json) : ClientCall
  | delete_statement (statement_id : Json) (body : Json) : ClientCall
deriving DecidableEq

/-- The external client collaborator (`core.client.Client`): lookups are
pure functions, operation calls go through `respond`. -/
structure Client where
  get_property_data_type : Json → String
  get_statements : Json → List (Json × List Statement)
  respond : ClientCall → Json

/-- First-match lookup in the property → statements mapping returned by
`get_statements` (Python `dict.get`). -/
def lookupProp : List (Json × List Statement) → Json → Option (List Statement)
  | [], _ => none
  | (k', v) :: rest, k => if k' = k then some v else lookupProp rest k

/-- `d[k] = v` on a Python dict: replaces in place when the key exists,
appends otherwise. -/
def setField : List (String × Json) → String → Json → List (String × Json)
  | [], k, v => [(k, v)]
  | (k', v') :: rest, k, v =>
    if k' = k then (k, v) :: rest else (k', v') :: setField rest k v

def Json.setKey : Json → String → Json → Json
  | .obj fields, k, v => .obj (setField fields k v)
  | j, _, _ => j

/-- `Utilities._comment` (lines 77-81): the command's summary, or the
empty string when absent. -/
def Utilities.comment (cmdJson : Json) : Json :=
  (cmdJson.get? "summary").getD (.str "")

/-- `Utilities.full_body` (lines 71-75) applied to an already-computed
body: sets `comment` to the summary and `bot` to `False`. -/
def Utilities.full_body (body : Json) (cmdJson : Json) : Json :=
  (body.setKey "comment" (Utilities.comment cmdJson)).setKey "bot" (.bool false)

/-- State built by `AddStatement.__init__` (lines 84-97). -/
structure AddStatementState where
  command : Command
  entity_id : Json
  property_id : Json
  parser_value : Json
  data_type : Json
  references : Json
  qualifiers : Json

/-- `AddStatement.verify_data_type` (lines 99-111). -/
def AddStatement.verify_data_type (client : Client) (s : AddStatementState) :
    Except Err Unit :=
  let needed_data_type := client.get_property_data_type s.property_id
  if s.data_type = .str "somevalue" ∨ s.data_type = .str "novalue" then
    .ok ()
  else if Json.str needed_data_type ≠ s.data_type then
    .error (.invalidPropertyDataType s.property_id s.data_type needed_data_type)
  else
    .ok ()

/-- `AddStatement.__init__` (lines 84-97): unpack the payload and run
`verify_data_type`. -/
def AddStatement.init (client : Client) (command : Command) :
    Except Err AddStatementState := do
  let j := command.json
  let entity ← j.getE "entity"
  let entity_id ← entity.getE "id"
  let property_id ← j.getE "property"
  let parser_value ← j.getE "value"
  let data_type ← parser_value.getE "type"
  let references := (j.get? "references").getD (.arr [])
  let qualifiers := (j.get? "qualifiers").getD (.arr [])
  let s : AddStatementState :=
    ⟨command, entity_id, property_id, parser_value, data_type, references, qualifiers⟩
  let _ ← AddStatement.verify_data_type client s
  return s

/-- Body of the comprehensions in `AddStatement.body` (lines 114-131):
one qualifier or reference part becomes
`{"property": {"id": ...}, "value": <api value>}`. -/
def translate_pair (q : Json) : Except Err Json := do
  let p ← q.getE "property"
  let v ← q.getE "value"
  let av ← parser_value_to_api_value v
  return .obj [("property", .obj [("id", p)]), ("value", av)]

/-- One reference (lines 123-132): its parts are translated in order and
wrapped under `"parts"`. -/
def translate_reference (ref : Json) : Except Err Json := do
  let parts ← ref.asArr
  let fixed_parts ← parts.mapM translate_pair
  return .obj [("parts", .arr fixed_parts)]

/-- `AddStatement.body` (lines 113-143). -/
def AddStatement.body (s : AddStatementState) : Except Err Json := do
  let qs ← s.qualifiers.asArr
  let all_quali ← qs.mapM translate_pair
  let refs ← s.references.asArr
  let all_refs ← refs.mapM translate_reference
  let v ← parser_value_to_api_value s.parser_value
  return .obj [("statement", .obj
    [("property", .obj [("id", s.property_id)]),
     ("value", v),
     ("qualifiers", .arr all_quali),
     ("references", .arr all_refs)])]

def AddStatement.full_body (s : AddStatementState) : Except Err Json := do
  let b ← AddStatement.body s
  return Utilities.full_body b s.command.json

/-- `AddStatement.send` (lines 145-148). -/
def AddStatement.send (client : Client) (s : AddStatementState) :
    Except Err (ClientCall × Json) := do
  let fb ← AddStatement.full_body s
  let call := ClientCall.add_statement s.entity_id fb
  return (call, client.respond call)

/-- State built by `AddLabelDescriptionOrAlias.__init__` (lines 152-160). -/
structure AddLabelDescriptionOrAliasState where
  command : Command
  what : Json
  entity_id : Json
  language : Json
  value : Json

def AddLabelDescriptionOrAlias.init (command : Command) :
    Except Err AddLabelDescriptionOrAliasState := do
  let j := command.json
  let what ← j.getE "what"
  let entity_id ← j.getE "item"
  let language ← j.getE "language"
  let v ← j.getE "value"
  let value ← v.getE "value"
  return ⟨command, what, entity_id, language, value⟩

/-- `AddLabelDescriptionOrAlias.body` (lines 162-176): a one-element
JSON-patch; the path gets a trailing `/0` exactly for aliases. -/
def AddLabelDescriptionOrAlias.body (s : AddLabelDescriptionOrAliasState) : Json :=
  let path :=
    if s.what ≠ .str "alias" then "/" ++ pyStr s.language
    else "/" ++ pyStr s.language ++ "/0"
  .obj [("patch", .arr
    [.obj [("op", .str "add"), ("path", .str path), ("value", s.value)]])]

def AddLabelDescriptionOrAlias.full_body (s : AddLabelDescriptionOrAliasState) : Json :=
  Utilities.full_body (AddLabelDescriptionOrAlias.body s) s.command.json

/-- `AddLabelDescriptionOrAlias.send` (lines 178-188). -/
def AddLabelDescriptionOrAlias.send (client : Client)
    (s : AddLabelDescriptionOrAliasState) : Except Err (ClientCall × Json) :=
  let fb := AddLabelDescriptionOrAlias.full_body s
  if s.what = .str "label" then
    let call := ClientCall.add_label s.entity_id fb
    .ok (call, client.respond call)
  else if s.what = .str "description" then
    let call := ClientCall.add_description s.entity_id fb
    .ok (call, client.respond call)
  else if s.what = .str "alias" then
    let call := ClientCall.add_alias s.entity_id fb
    .ok (call, client.respond call)
  else
    .error (.valueError "what is not label, description or alias.")

/-- State built by `AddSitelink.__init__` (lines 192-200). -/
structure AddSitelinkState where
  command : Command
  what : Json
  entity_id : Json
  site : Json
  value : Json

def AddSitelink.init (command : Command) : Except Err AddSitelinkState := do
  let j := command.json
  let what ← j.getE "what"
  let entity_id ← j.getE "item"
  let site ← j.getE "site"
  let v ← j.getE "value"
  let value ← v.getE "value"
  return ⟨command, what, entity_id, site, value⟩

/-- `AddSitelink.body` (lines 202-211). -/
def AddSitelink.body (s : AddSitelinkState) : Json :=
  .obj [("patch", .arr
    [.obj [("op", .str "replace"),
           ("path", .str ("/" ++ pyStr s.site ++ "/title")),
           ("value", s.value)]])]

def AddSitelink.full_body (s : AddSitelinkState) : Json :=
  Utilities.full_body (AddSitelink.body s) s.command.json

/-- `AddSitelink.send` (lines 213-216). -/
def AddSitelink.send (client : Client) (s : AddSitelinkState) : ClientCall × Json :=
  let call := ClientCall.add_sitelink s.entity_id (AddSitelink.full_body s)
  (call, client.respond call)

/-- State built by `CreateItem.__init__` (lines 220-221). -/
structure CreateItemState where
  command : Command

def CreateItem.init (command : Command) : CreateItemState := ⟨command⟩

/-- `CreateItem.body` (lines 223-224). -/
def CreateItem.body (_ : CreateItemState) : Json := .obj [("item", .obj [])]

def CreateItem.full_body (s : CreateItemState) : Json :=
  Utilities.full_body (CreateItem.body s) s.command.json

/-- `CreateItem.send` (lines 226-229). -/
def CreateItem.send (client : Client) (s : CreateItemState) : ClientCall × Json :=
  let call := ClientCall.create_item (CreateItem.full_body s)
  (call, client.respond call)

/-- State built by `RemoveStatement.__init__` (lines 233-243). -/
structure RemoveStatementState where
  command : Command
  entity_id : Json
  property_id : Json
  parser_value : Json
  api_value : Json
  ids_to_delete : List Json

/-- `RemoveStatement._get_statements_for_our_property` (lines 266-275). -/
def RemoveStatement.get_statements_for_our_property (client : Client)
    (entity_id property_id : Json) : Except Err (List Statement) :=
  let all_statements := client.get_statements entity_id
  let our_statements := (lookupProp all_statements property_id).getD []
  if our_statements.length = 0 then
    .error (.noStatementsForThatProperty entity_id property_id)
  else
    .ok our_statements

/-- `RemoveStatement.load_ids_to_delete` (lines 245-264); the accumulation
loop keeps, in order, the ids of the statements whose value equals the
translated target value. -/
def RemoveStatement.load_ids_to_delete (client : Client)
    (entity_id property_id parser_value api_value : Json) :
    Except Err (List Json) := do
  let statements ←
    RemoveStatement.get_statements_for_our_property client entity_id property_id
  let ids_to_delete :=
    (statements.filter (fun st => decide (st.value = api_value))).map
      (fun st => st.id)
  if ids_to_delete.length = 0 then
    let v ← parser_value.getE "value"
    throw (.noStatementsWithThatValue entity_id property_id v)
  else
    return ids_to_delete

/-- `RemoveStatement.__init__` (lines 233-243). -/
def RemoveStatement.init (client : Client) (command : Command) :
    Except Err RemoveStatementState := do
  let j := command.json
  let entity ← j.getE "entity"
  let entity_id ← entity.getE "id"
  let property_id ← j.getE "property"
  let parser_value ← j.getE "value"
  let api_value ← parser_value_to_api_value parser_value
  let ids ← RemoveStatement.load_ids_to_delete client entity_id property_id
    parser_value api_value
  return ⟨command, entity_id, property_id, parser_value, api_value, ids⟩

/-- `RemoveStatement.body` (lines 277-278). -/
def RemoveStatement.body (_ : RemoveStatementState) : Json := .obj []

def RemoveStatement.full_body (s : RemoveStatementState) : Json :=
  Utilities.full_body (RemoveStatement.body s) s.command.json

/-- `RemoveStatement.send` (lines 280-287): delete each matching id in
order, collecting the calls made and the responses. -/
def RemoveStatement.send (client : Client) (s : RemoveStatementState) :
    List ClientCall × List Json :=
  let full_body := RemoveStatement.full_body s
  s.ids_to_delete.foldl
    (fun acc id =>
      let call := ClientCall.delete_statement id full_body
      (acc.1 ++ [call], acc.2 ++ [client.respond call]))
    ([], [])

/-- The handler chosen by the builder. -/
inductive Handler where
  | addStatement (s : AddStatementState) : Handler
  | addLabelDescriptionOrAlias (s : AddLabelDescriptionOrAliasState) : Handler
  | addSitelink (s : AddSitelinkState) : Handler
  | createItem (s : CreateItemState) : Handler
  | removeStatement (s : RemoveStatementState) : Handler

/-- `ApiCommandBuilder.build` (lines 38-58). -/
def ApiCommandBuilder.build (client : Client) (command : Command) :
    Except Err Handler := do
  match command.action with
  | .add =>
    let what ← command.json.getE "what"
    if what = .str "statement" then
      let s ← AddStatement.init client command
      return .addStatement s
    else if what = .str "label" ∨ what = .str "description" ∨ what = .str "alias" then
      let s ← AddLabelDescriptionOrAlias.init command
      return .addLabelDescriptionOrAlias s
    else if what = .str "sitelink" then
      let s ← AddSitelink.init command
      return .addSitelink s
    else
      throw .apiNotImplemented
  | .create =>
    let ty ← command.json.getE "type"
    if ty = .str "item" then
      return .createItem (CreateItem.init command)
    else if ty = .str "property" then
      throw .apiNotImplemented
    else
      throw .apiNotImplemented
  | .remove =>
    let what ← command.json.getE "what"
    if what = .str "statement" then
      let s ← RemoveStatement.init client command
      return .removeStatement s
    else
      throw .apiNotImplemented

/-- C4: `verify_data_type` raises `InvalidPropertyDataType(property id,
declared type, registered type)` exactly when the declared type differs
from the type registered for the property (looked up via the client) and
is neither `somevalue` nor `novalue`; in every other case it succeeds. -/
theorem addStatement_verify_data_type_spec (client : Client) (s : AddStatementState) :
    (AddStatement.verify_data_type client s =
        .error (.invalidPropertyDataType s.property_id s.data_type
          (client.get_property_data_type s.property_id))
      ↔ (s.data_type ≠ .str "somevalue" ∧ s.data_type ≠ .str "novalue" ∧
          s.data_type ≠ .str (client.get_property_data_type s.property_id)))
    ∧ (AddStatement.verify_data_type client s = .ok ()
      ↔ (s.data_type = .str "somevalue" ∨ s.data_type = .str "novalue" ∨
          s.data_type = .str (client.get_property_data_type s.property_id))) := by
  constructor
  · constructor
    · intro h
      by_cases h1 : s.data_type = Json.str "somevalue" ∨ s.data_type = Json.str "novalue"
      · unfold AddStatement.verify_data_type at h
        rw [if_pos h1] at h
        simp at h
      · by_cases h2 : Json.str (client.get_property_data_type s.property_id) = s.data_type
        · unfold AddStatement.verify_data_type at h
          rw [if_neg h1, if_neg (by simp [h2])] at h
          simp at h
        · push_neg at h1
          exact ⟨h1.1, h1.2, fun hc => h2 hc.symm⟩
    · rintro ⟨ha, hb, hc⟩
      unfold AddStatement.verify_data_type
      rw [if_neg (by push_neg; exact ⟨ha, hb⟩), if_pos (fun hh => hc hh.symm)]
  · constructor
    · intro h
      by_cases h1 : s.data_type = Json.str "somevalue" ∨ s.data_type = Json.str "novalue"
      · tauto
      · by_cases h2 : Json.str (client.get_property_data_type s.property_id) = s.data_type
        · right; right
          exact h2.symm
        · unfold AddStatement.verify_data_type at h
          rw [if_neg h1, if_pos (fun hh => h2 hh)] at h
          simp at h
    · intro h
      unfold AddStatement.verify_data_type
      rcases h with h | h | h
      · rw [if_pos (Or.inl h)]
      · rw [if_pos (Or.inr h)]
      · by_cases h1 : s.data_type = Json.str "somevalue" ∨ s.data_type = Json.str "novalue"
        · rw [if_pos h1]
        · rw [if_neg h1, if_neg (by simp [h])]

theorem setField_eq_append (fs : List (String × Json)) (k : String) (v : Json)
    (h : lookupField fs k = none) : setField fs k v = fs ++ [(k, v)] := by
  induction fs with
  | nil => rfl
  | cons kv rest ih =>
    obtain ⟨k', v'⟩ := kv
    by_cases hk : k' = k
    · simp [lookupField, hk] at h
    · rw [lookupField] at h
      rw [if_neg hk] at h
      simp [setField, hk, ih h]

theorem lookupField_append_singleton (fs : List (String × Json)) (k k1 : String)
    (v1 : Json) (h : lookupField fs k = none) (hne : k1 ≠ k) :
    lookupField (fs ++ [(k1, v1)]) k = none := by
  induction fs with
  | nil => simp [lookupField, hne]
  | cons kv rest ih =>
    obtain ⟨k', v'⟩ := kv
    by_cases hk : k' = k
    · simp [lookupField, hk] at h
    · rw [lookupField] at h
      rw [if_neg hk] at h
      simp only [List.cons_append, lookupField, if_neg hk]
      exact ih h

/-- C9: the body actually sent is the handler's `body()` with exactly two
fields appended — `comment` set to the command's summary (empty string
when absent) and `bot` set to `False` — every original field staying in
place; and each handler's `full_body` is exactly this augmentation of its
`body()`. -/
theorem full_body_adds_comment_and_bot :
    (∀ (body cmdJson : Json) (fields : List (String × Json)),
      body = .obj fields →
      lookupField fields "comment" = none →
      lookupField fields "bot" = none →
      Utilities.full_body body cmdJson =
        .obj (fields ++
          [("comment", (cmdJson.get? "summary").getD (.str "")),
           ("bot", .bool false)]))
    ∧ (∀ s, AddStatement.full_body s =
        (AddStatement.body s).map (fun b => Utilities.full_body b s.command.json))
    ∧ (∀ s, AddLabelDescriptionOrAlias.full_body s =
        Utilities.full_body (AddLabelDescriptionOrAlias.body s) s.command.json)
    ∧ (∀ s, AddSitelink.full_body s =
        Utilities.full_body (AddSitelink.body s) s.command.json)
    ∧ (∀ s, CreateItem.full_body s =
        Utilities.full_body (CreateItem.body s) s.command.json)
    ∧ (∀ s, RemoveStatement.full_body s =
        Utilities.full_body (RemoveStatement.body s) s.command.json) := by
  refine ⟨?_, ?_, fun s => rfl, fun s => rfl, fun s => rfl, fun s => rfl⟩
  · intro body cmdJson fields hb hc hbot
    subst hb
    unfold Utilities.full_body
    rw [Json.setKey, setField_eq_append _ _ _ hc, Json.setKey,
      setField_eq_append _ _ _
        (lookupField_append_singleton _ _ _ _ hbot (by decide)),
      List.append_assoc]
    rfl
  · intro s
    unfold AddStatement.full_body
    cases h : AddStatement.body s <;>
      simp [h, Except.map, Bind.bind, Except.bind, pure, Except.pure]

/-- Witness for C9 at a concrete body and command payload. -/
theorem full_body_adds_comment_and_bot_witness :
    Utilities.full_body (.obj [("item", .obj [])])
        (.obj [("summary", .str "note")]) =
      .obj [("item", .obj []), ("comment", .str "note"), ("bot", .bool false)] :=
  full_body_adds_comment_and_bot.1 (.obj [("item", .obj [])])
    (.obj [("summary", .str "note")]) [("item", .obj [])] rfl rfl rfl

/-- C5: `AddStatement.body` returns a statement object with the property
id, the translated main value, the qualifiers each translated (in input
order) to an object pairing `property.id` with the translated value, and
the references each translated (in input order) to `parts`, an in-order
list of translated parts. -/
theorem addStatement_body_spec :
    (∀ (s : AddStatementState) (qs refs tqs trefs : List Json) (mv : Json),
      s.qualifiers = .arr qs →
      s.references = .arr refs →
      qs.mapM translate_pair = .ok tqs →
      refs.mapM translate_reference = .ok trefs →
      parser_value_to_api_value s.parser_value = .ok mv →
      AddStatement.body s = .ok (.obj [("statement", .obj
        [("property", .obj [("id", s.property_id)]),
         ("value", mv),
         ("qualifiers", .arr tqs),
         ("references", .arr trefs)])]))
    ∧ (∀ (q p v av : Json), q.get? "property" = some p → q.get? "value" = some v →
        parser_value_to_api_value v = .ok av →
        translate_pair q = .ok (.obj [("property", .obj [("id", p)]), ("value", av)]))
    ∧ (∀ (ref : Json) (parts tparts : List Json),
        ref = .arr parts → parts.mapM translate_pair = .ok tparts →
        translate_reference ref = .ok (.obj [("parts", .arr tparts)])) := by
  refine ⟨?_, ?_, ?_⟩
  · intro s qs refs tqs trefs mv hq hr hmq hmr hmv
    unfold AddStatement.body
    rw [hq, hr]
    rw [List.mapM] at hmq hmr
    simp [Json.asArr, hmq, hmr, hmv, Bind.bind, Except.bind, pure, Except.pure]
  · intro q p v av hp hv hav
    unfold translate_pair
    simp [Json.getE, hp, hv, hav, Bind.bind, Except.bind, pure, Except.pure]
  · intro ref parts tparts href hmp
    subst href
    unfold translate_reference
    rw [List.mapM] at hmp
    simp [Json.asArr, hmp, Bind.bind, Except.bind, pure, Except.pure]

/-- Witness for C5: two qualifiers and one two-part reference, checking
order is preserved. -/
theorem addStatement_body_spec_witness :
    AddStatement.body
      ⟨⟨.add, .null⟩, .str "Q1", .str "P5",
        .obj [("type", .str "string"), ("value", .str "m")],
        .str "string",
        .arr [.arr
          [.obj [("property", .str "P7"),
                 ("value", .obj [("type", .str "string"), ("value", .str "r1")])],
           .obj [("property", .str "P8"),
                 ("value", .obj [("type", .str "novalue")])]]],
        .arr
          [.obj [("property", .str "P6"),
                 ("value", .obj [("type", .str "string"), ("value", .str "a")])],
           .obj [("property", .str "P9"),
                 ("value", .obj [("type", .str "somevalue")])]]⟩ =
      .ok (.obj [("statement", .obj
        [("property", .obj [("id", .str "P5")]),
         ("value", .obj [("type", .str "value"), ("content", .str "m")]),
         ("qualifiers", .arr
           [.obj [("property", .obj [("id", .str "P6")]),
                  ("value", .obj [("type", .str "value"), ("content", .str "a")])],
            .obj [("property", .obj [("id", .str "P9")]),
                  ("value", .obj [("type", .str "somevalue")])]]),
         ("references", .arr
           [.obj [("parts", .arr
             [.obj [("property", .obj [("id", .str "P7")]),
                    ("value", .obj [("type", .str "value"), ("content", .str "r1")])],
              .obj [("property", .obj [("id", .str "P8")]),
                    ("value", .obj [("type", .str "novalue")])]])]])])]) :=
  addStatement_body_spec.1 _ _ _ _ _ _ rfl rfl rfl rfl rfl

/-- C6: the body is a single JSON-patch `add` operation whose path is
`/<language>` except for aliases, which get `/<language>/0`, carrying the
literal value; `send` routes to `add_label`, `add_description` or
`add_alias` by kind and raises a `ValueError` for any other kind. -/
theorem addLabelDescriptionOrAlias_spec :
    (∀ (s : AddLabelDescriptionOrAliasState) (lang : String),
      s.language = .str lang →
      AddLabelDescriptionOrAlias.body s = .obj [("patch", .arr
        [.obj [("op", .str "add"),
               ("path", .str (if s.what = .str "alias" then "/" ++ lang ++ "/0"
                              else "/" ++ lang)),
               ("value", s.value)]])])
    ∧ (∀ (client : Client) (s : AddLabelDescriptionOrAliasState),
        (s.what = .str "label" →
          AddLabelDescriptionOrAlias.send client s =
            .ok (ClientCall.add_label s.entity_id (AddLabelDescriptionOrAlias.full_body s),
              client.respond
                (ClientCall.add_label s.entity_id (AddLabelDescriptionOrAlias.full_body s))))
        ∧ (s.what = .str "description" →
          AddLabelDescriptionOrAlias.send client s =
            .ok (ClientCall.add_description s.entity_id (AddLabelDescriptionOrAlias.full_body s),
              client.respond
                (ClientCall.add_description s.entity_id (AddLabelDescriptionOrAlias.full_body s))))
        ∧ (s.what = .str "alias" →
          AddLabelDescriptionOrAlias.send client s =
            .ok (ClientCall.add_alias s.entity_id (AddLabelDescriptionOrAlias.full_body s),
              client.respond
                (ClientCall.add_alias s.entity_id (AddLabelDescriptionOrAlias.full_body s))))
        ∧ (s.what ≠ .str "label" → s.what ≠ .str "description" → s.what ≠ .str "alias" →
          AddLabelDescriptionOrAlias.send client s =
            .error (.valueError "what is not label, description or alias."))) := by
  constructor
  · intro s lang hl
    unfold AddLabelDescriptionOrAlias.body
    by_cases h : s.what = .str "alias"
    · rw [if_neg (by simp [h]), if_pos h, hl, pyStr]
    · rw [if_pos h, if_neg h, hl, pyStr]
  · intro client s
    refine ⟨?_, ?_, ?_, ?_⟩
    · intro h
      unfold AddLabelDescriptionOrAlias.send
      rw [if_pos h]
    · intro h
      unfold AddLabelDescriptionOrAlias.send
      rw [if_neg (by simp [h]), if_pos h]
    · intro h
      unfold AddLabelDescriptionOrAlias.send
      rw [if_neg (by simp [h]), if_neg (by simp [h]), if_pos h]
    · intro h1 h2 h3
      unfold AddLabelDescriptionOrAlias.send
      rw [if_neg h1, if_neg h2, if_neg h3]

/-- Witness for C6: an alias command in language `en` gets patch path
`/en/0`, and `send` routes it to `add_alias`. -/
theorem addLabelDescriptionOrAlias_spec_witness :
    AddLabelDescriptionOrAlias.body
        ⟨⟨.add, .null⟩, .str "alias", .str "Q1", .str "en", .str "Foo"⟩ =
      .obj [("patch", .arr
        [.obj [("op", .str "add"), ("path", .str "/en/0"), ("value", .str "Foo")]])]
    ∧ AddLabelDescriptionOrAlias.send
        ⟨fun _ => "", fun _ => [], fun _ => .null⟩
        ⟨⟨.add, .null⟩, .str "alias", .str "Q1", .str "en", .str "Foo"⟩ =
      .ok (ClientCall.add_alias (.str "Q1")
            (AddLabelDescriptionOrAlias.full_body
              ⟨⟨.add, .null⟩, .str "alias", .str "Q1", .str "en", .str "Foo"⟩),
           .null) :=
  ⟨addLabelDescriptionOrAlias_spec.1
      ⟨⟨.add, .null⟩, .str "alias", .str "Q1", .str "en", .str "Foo"⟩ "en" rfl,
   (addLabelDescriptionOrAlias_spec.2
      ⟨fun _ => "", fun _ => [], fun _ => .null⟩
      ⟨⟨.add, .null⟩, .str "alias", .str "Q1", .str "en", .str "Foo"⟩).2.2.1 rfl⟩

/-- C7: `load_ids_to_delete` (run by the `RemoveStatement` constructor)
raises `NoStatementsForThatProperty` exactly when the entity has no
statements for the target property, and otherwise raises
`NoStatementsWithThatValue` exactly when no statement of that property
carries an API value equal to the translated target value. -/
theorem removeStatement_load_ids_errors (client : Client)
    (entity_id property_id parser_value api_value v : Json)
    (hv : parser_value.get? "value" = some v)
    (htr : parser_value_to_api_value parser_value = .ok api_value) :
    (RemoveStatement.load_ids_to_delete client entity_id property_id
        parser_value api_value =
        .error (.noStatementsForThatProperty entity_id property_id)
      ↔ (lookupProp (client.get_statements entity_id) property_id).getD [] = [])
    ∧ (RemoveStatement.load_ids_to_delete client entity_id property_id
        parser_value api_value =
        .error (.noStatementsWithThatValue entity_id property_id v)
      ↔ ((lookupProp (client.get_statements entity_id) property_id).getD [] ≠ []
          ∧ ∀ st ∈ (lookupProp (client.get_statements entity_id) property_id).getD [],
              st.value ≠ api_value)) := by
  unfold RemoveStatement.load_ids_to_delete
    RemoveStatement.get_statements_for_our_property
  by_cases hempty :
      (lookupProp (client.get_statements entity_id) property_id).getD [] = []
  · rw [if_pos (by rw [hempty]; rfl)]
    constructor
    · simp [Bind.bind, Except.bind, hempty]
    · simp [Bind.bind, Except.bind, hempty]
  · rw [if_neg (by simpa [List.length_eq_zero] using hempty)]
    by_cases hmatch :
        ∀ st ∈ (lookupProp (client.get_statements entity_id) property_id).getD [],
          st.value ≠ api_value
    · have hfil :
          ((lookupProp (client.get_statements entity_id) property_id).getD []).filter
            (fun st => decide (st.value = api_value)) = [] := by
        rw [List.filter_eq_nil]
        intro st hst
        simp [hmatch st hst]
      constructor
      · simp [Bind.bind, Except.bind, hfil, Json.getE, hv, throw, throwThe,
          MonadExceptOf.throw, hempty]
      · simp [Bind.bind, Except.bind, hfil, Json.getE, hv, throw, throwThe,
          MonadExceptOf.throw, hempty]
        exact hmatch
    · have hfil :
          ((lookupProp (client.get_statements entity_id) property_id).getD []).filter
            (fun st => decide (st.value = api_value)) ≠ [] := by
        rw [Ne, List.filter_eq_nil]
        push_neg at hmatch ⊢
        obtain ⟨st, hst, heq⟩ := hmatch
        exact ⟨st, hst, by simp [heq]⟩
      constructor
      · simp [Bind.bind, Except.bind, pure, Except.pure,
          List.length_eq_zero, List.map_eq_nil, hfil]
        exact hempty
      · simp [Bind.bind, Except.bind, pure, Except.pure,
          List.length_eq_zero, List.map_eq_nil, hfil, hmatch]

/-- Witness for C7: one statement on the property with a different value
makes construction fail with `NoStatementsWithThatValue`. -/
theorem removeStatement_load_ids_errors_witness :
    RemoveStatement.load_ids_to_delete
      ⟨fun _ => "",
       fun _ => [(.str "P31",
         [⟨.str "s1", .obj [("type", .str "value"), ("content", .str "V1")]⟩])],
       fun _ => .null⟩
      (.str "Q1") (.str "P31")
      (.obj [("type", .str "string"), ("value", .str "V2")])
      (.obj [("type", .str "value"), ("content", .str "V2")]) =
      .error (.noStatementsWithThatValue (.str "Q1") (.str "P31") (.str "V2")) :=
  (removeStatement_load_ids_errors
    ⟨fun _ => "",
     fun _ => [(.str "P31",
       [⟨.str "s1", .obj [("type", .str "value"), ("content", .str "V1")]⟩])],
     fun _ => .null⟩
    (.str "Q1") (.str "P31")
    (.obj [("type", .str "string"), ("value", .str "V2")])
    (.obj [("type", .str "value"), ("content", .str "V2")])
    (.str "V2") rfl rfl).2.mpr (by constructor <;> decide)

/-- C10: raising `NoStatementsWithThatValue` reads the target's raw
`"value"` entry, so when the target is tagged `novalue`/`somevalue` (and
hence has no `"value"` entry) and statements exist for the property but
none matches, construction fails with a `KeyError` on `"value"` instead
of `NoStatementsWithThatValue`. -/
theorem removeStatement_novalue_keyError (client : Client)
    (entity_id property_id parser_value api_value t : Json)
    (ht : parser_value.get? "type" = some t)
    (hmem : t = .str "novalue" ∨ t = .str "somevalue")
    (hnov : parser_value.get? "value" = none)
    (htr : parser_value_to_api_value parser_value = .ok api_value)
    (hsome : (lookupProp (client.get_statements entity_id) property_id).getD [] ≠ [])
    (hmatch : ∀ st ∈ (lookupProp (client.get_statements entity_id) property_id).getD [],
        st.value ≠ api_value) :
    RemoveStatement.load_ids_to_delete client entity_id property_id
        parser_value api_value =
      .error (.keyError "value") := by
  unfold RemoveStatement.load_ids_to_delete
    RemoveStatement.get_statements_for_our_property
  rw [if_neg (by simpa [List.length_eq_zero] using hsome)]
  have hfil :
      ((lookupProp (client.get_statements entity_id) property_id).getD []).filter
        (fun st => decide (st.value = api_value)) = [] := by
    rw [List.filter_eq_nil]
    intro st hst
    simp [hmatch st hst]
  simp [Bind.bind, Except.bind, hfil, Json.getE, hnov, throw, throwThe,
    MonadExceptOf.throw]

/-- Witness for C10: a `novalue` target against a property whose single
statement has a real value yields `KeyError("value")`. -/
theorem removeStatement_novalue_keyError_witness :
    RemoveStatement.load_ids_to_delete
      ⟨fun _ => "",
       fun _ => [(.str "P31",
         [⟨.str "s1", .obj [("type", .str "value"), ("content", .str "V1")]⟩])],
       fun _ => .null⟩
      (.str "Q1") (.str "P31")
      (.obj [("type", .str "novalue")])
      (.obj [("type", .str "novalue")]) =
      .error (.keyError "value") :=
  removeStatement_novalue_keyError
    ⟨fun _ => "",
     fun _ => [(.str "P31",
       [⟨.str "s1", .obj [("type", .str "value"), ("content", .str "V1")]⟩])],
     fun _ => .null⟩
    (.str "Q1") (.str "P31")
    (.obj [("type", .str "novalue")])
    (.obj [("type", .str "novalue")])
    (.str "novalue") rfl (Or.inl rfl) rfl rfl (by decide) (by decide)

theorem foldl_double_append {α β γ : Type} (f : α → β) (g : α → γ) :
    ∀ (l : List α) (a : List β) (b : List γ),
      l.foldl (fun acc x => (acc.1 ++ [f x], acc.2 ++ [g x])) (a, b) =
        (a ++ l.map f, b ++ l.map g)
  | [], a, b => by simp
  | x :: l, a, b => by
    simp only [List.foldl_cons, List.map_cons]
    rw [foldl_double_append f g l (a ++ [f x]) (b ++ [g x])]
    simp

/-- C8: after a successful construction with `n` matching statement ids,
`send` issues one `delete_statement` call per id, in the order the
statements were listed, and returns the `n` responses in that order. -/
theorem removeStatement_send_spec (client : Client) (command : Command)
    (s : RemoveStatementState) (n : ℕ)
    (hinit : RemoveStatement.init client command = .ok s)
    (hn : s.ids_to_delete.length = n) :
    RemoveStatement.send client s =
      (s.ids_to_delete.map
        (fun id => ClientCall.delete_statement id (RemoveStatement.full_body s)),
       s.ids_to_delete.map
        (fun id => client.respond
          (ClientCall.delete_statement id (RemoveStatement.full_body s))))
    ∧ (RemoveStatement.send client s).1.length = n
    ∧ (RemoveStatement.send client s).2.length = n := by
  have hsend : RemoveStatement.send client s =
      (s.ids_to_delete.map
        (fun id => ClientCall.delete_statement id (RemoveStatement.full_body s)),
       s.ids_to_delete.map
        (fun id => client.respond
          (ClientCall.delete_statement id (RemoveStatement.full_body s)))) := by
    unfold RemoveStatement.send
    rw [foldl_double_append]
    simp
  refine ⟨hsend, ?_, ?_⟩ <;> rw [hsend] <;> simp [hn]

/-- Witness for C8: two matching statements yield two deletions and two
responses. -/
theorem removeStatement_send_spec_witness :
    RemoveStatement.send
      ⟨fun _ => "",
       fun _ => [(.str "P31",
         [⟨.str "s1", .obj [("type", .str "value"), ("content", .str "V")]⟩,
          ⟨.str "s2", .obj [("type", .str "value"), ("content", .str "V")]⟩])],
       fun _ => .null⟩
      ⟨⟨.remove, .obj
          [("entity", .obj [("id", .str "Q1")]),
           ("property", .str "P31"),
           ("value", .obj [("type", .str "string"), ("value", .str "V")])]⟩,
        .str "Q1", .str "P31",
        .obj [("type", .str "string"), ("value", .str "V")],
        .obj [("type", .str "value"), ("content", .str "V")],
        [.str "s1", .str "s2"]⟩ =
      ([ClientCall.delete_statement (.str "s1")
          (.obj [("comment", .str ""), ("bot", .bool false)]),
        ClientCall.delete_statement (.str "s2")
          (.obj [("comment", .str ""), ("bot", .bool false)])],
       [.null, .null]) :=
  (removeStatement_send_spec
    ⟨fun _ => "",
     fun _ => [(.str "P31",
       [⟨.str "s1", .obj [("type", .str "value"), ("content", .str "V")]⟩,
        ⟨.str "s2", .obj [("type", .str "value"), ("content", .str "V")]⟩])],
     fun _ => .null⟩
    ⟨.remove, .obj
        [("entity", .obj [("id", .str "Q1")]),
         ("property", .str "P31"),
         ("value", .obj [("type", .str "string"), ("value", .str "V")])]⟩
    ⟨⟨.remove, .obj
        [("entity", .obj [("id", .str "Q1")]),
         ("property", .str "P31"),
         ("value", .obj [("type", .str "string"), ("value", .str "V")])]⟩,
      .str "Q1", .str "P31",
      .obj [("type", .str "string"), ("value", .str "V")],
      .obj [("type", .str "value"), ("content", .str "V")],
      [.str "s1", .str "s2"]⟩
    2 rfl rfl).1

/-- C1: `ApiCommandBuilder.build` dispatches on (action, kind):
add+statement → `AddStatement`, add+label/description/alias →
`AddLabelDescriptionOrAlias`, add+sitelink → `AddSitelink`,
create+item → `CreateItem`, remove+statement → `RemoveStatement`,
create+property and every other (action, kind) combination →
`ApiNotImplemented`. -/
theorem apiCommandBuilder_build_dispatch (client : Client) (command : Command) :
    (command.action = .add → command.json.get? "what" = some (.str "statement") →
      ApiCommandBuilder.build client command =
        (AddStatement.init client command).map Handler.addStatement)
    ∧ (∀ w, command.action = .add → command.json.get? "what" = some w →
        (w = .str "label" ∨ w = .str "description" ∨ w = .str "alias") →
        ApiCommandBuilder.build client command =
          (AddLabelDescriptionOrAlias.init command).map Handler.addLabelDescriptionOrAlias)
    ∧ (command.action = .add → command.json.get? "what" = some (.str "sitelink") →
        ApiCommandBuilder.build client command =
          (AddSitelink.init command).map Handler.addSitelink)
    ∧ (command.action = .create → command.json.get? "type" = some (.str "item") →
        ApiCommandBuilder.build client command =
          .ok (.createItem (CreateItem.init command)))
    ∧ (command.action = .create → command.json.get? "type" = some (.str "property") →
        ApiCommandBuilder.build client command = .error .apiNotImplemented)
    ∧ (command.action = .remove → command.json.get? "what" = some (.str "statement") →
        ApiCommandBuilder.build client command =
          (RemoveStatement.init client command).map Handler.removeStatement)
    ∧ (∀ w, command.action = .add → command.json.get? "what" = some w →
        w ≠ .str "statement" → w ≠ .str "label" → w ≠ .str "description" →
        w ≠ .str "alias" → w ≠ .str "sitelink" →
        ApiCommandBuilder.build client command = .error .apiNotImplemented)
    ∧ (∀ t, command.action = .create → command.json.get? "type" = some t →
        t ≠ .str "item" → t ≠ .str "property" →
        ApiCommandBuilder.build client command = .error .apiNotImplemented)
    ∧ (∀ w, command.action = .remove → command.json.get? "what" = some w →
        w ≠ .str "statement" →
        ApiCommandBuilder.build client command = .error .apiNotImplemented) := by
  refine ⟨?_, ?_, ?_, ?_, ?_, ?_, ?_, ?_, ?_⟩
  · intro ha hw
    unfold ApiCommandBuilder.build
    rw [ha]
    cases h : AddStatement.init client command <;>
      simp [Json.getE, hw, h, Bind.bind, Except.bind, pure, Except.pure, Except.map]
  · intro w ha hw hmem
    unfold ApiCommandBuilder.build
    rw [ha]
    have hne : w ≠ Json.str "statement" := by
      rcases hmem with h | h | h <;> simp [h]
    cases h : AddLabelDescriptionOrAlias.init command <;>
      simp [Json.getE, hw, hne, hmem, h, Bind.bind, Except.bind, pure, Except.pure,
        Except.map]
  · intro ha hw
    unfold ApiCommandBuilder.build
    rw [ha]
    cases h : AddSitelink.init command <;>
      simp [Json.getE, hw, h, Bind.bind, Except.bind, pure, Except.pure, Except.map]
  · intro ha ht
    unfold ApiCommandBuilder.build
    rw [ha]
    simp [Json.getE, ht, Bind.bind, Except.bind, pure, Except.pure]
  · intro ha ht
    unfold ApiCommandBuilder.build
    rw [ha]
    simp [Json.getE, ht, Bind.bind, Except.bind, pure, Except.pure, throw,
      throwThe, MonadExceptOf.throw]
  · intro ha hw
    unfold ApiCommandBuilder.build
    rw [ha]
    cases h : RemoveStatement.init client command <;>
      simp [Json.getE, hw, h, Bind.bind, Except.bind, pure, Except.pure, Except.map]
  · intro w ha hw h1 h2 h3 h4 h5
    unfold ApiCommandBuilder.build
    rw [ha]
    simp [Json.getE, hw, h1, h2, h3, h4, h5, Bind.bind, Except.bind, throw,
      throwThe, MonadExceptOf.throw]
  · intro t ha ht h1 h2
    unfold ApiCommandBuilder.build
    rw [ha]
    simp [Json.getE, ht, h1, h2, Bind.bind, Except.bind, throw, throwThe,
      MonadExceptOf.throw]
  · intro w ha hw h1
    unfold ApiCommandBuilder.build
    rw [ha]
    simp [Json.getE, hw, h1, Bind.bind, Except.bind, throw, throwThe,
      MonadExceptOf.throw]

/-- Witness for C1: concrete dispatches, including the unimplemented
create+property combination. -/
theorem apiCommandBuilder_build_dispatch_witness :
    ApiCommandBuilder.build ⟨fun _ => "", fun _ => [], fun _ => .null⟩
        ⟨.create, .obj [("type", .str "property")]⟩ = .error .apiNotImplemented
    ∧ ApiCommandBuilder.build ⟨fun _ => "", fun _ => [], fun _ => .null⟩
        ⟨.create, .obj [("type", .str "item")]⟩ =
        .ok (.createItem (CreateItem.init ⟨.create, .obj [("type", .str "item")]⟩))
    ∧ ApiCommandBuilder.build ⟨fun _ => "", fun _ => [], fun _ => .null⟩
        ⟨.add, .obj [("what", .str "alias"), ("item", .str "Q1"),
          ("language", .str "en"), ("value", .obj [("value", .str "x")])]⟩ =
        (AddLabelDescriptionOrAlias.init
          ⟨.add, .obj [("what", .str "alias"), ("item", .str "Q1"),
            ("language", .str "en"), ("value", .obj [("value", .str "x")])]⟩).map
          Handler.addLabelDescriptionOrAlias
    ∧ ApiCommandBuilder.build ⟨fun _ => "", fun _ => [], fun _ => .null⟩
        ⟨.remove, .obj [("what", .str "sitelink")]⟩ = .error .apiNotImplemented :=
  ⟨(apiCommandBuilder_build_dispatch _ _).2.2.2.2.1 rfl rfl,
   (apiCommandBuilder_build_dispatch _ _).2.2.2.1 rfl rfl,
   (apiCommandBuilder_build_dispatch _ _).2.1 (.str "alias") rfl rfl
     (Or.inr (Or.inr rfl)),
   (apiCommandBuilder_build_dispatch _ _).2.2.2.2.2.2.2.2 (.str "sitelink") rfl rfl
     (by decide)⟩

/-- Witness for C4: declared type `string` against a property registered
as `quantity` raises `InvalidPropertyDataType`. -/
theorem addStatement_verify_data_type_spec_witness :
    AddStatement.verify_data_type
        ⟨fun _ => "quantity", fun _ => [], fun _ => .null⟩
        ⟨⟨.add, .null⟩, .str "Q1", .str "P1",
          .obj [("type", .str "string"), ("value", .str "x")],
          .str "string", .arr [], .arr []⟩ =
      .error (.invalidPropertyDataType (.str "P1") (.str "string") "quantity") :=
  (addStatement_verify_data_type_spec
    ⟨fun _ => "quantity", fun _ => [], fun _ => .null⟩
    ⟨⟨.add, .null⟩, .str "Q1", .str "P1",
      .obj [("type", .str "string"), ("value", .str "x")],
      .str "string", .arr [], .arr []⟩).1.mpr
    (by refine ⟨?_, ?_, ?_⟩ <;> decide)
